import Mathlib

/-! Sender resolution and the update envelope of gotgbot.

A shallow embedding of `sender.go` and `handler.go`.

Conventions of the embedding:

* a Go pointer `*T` is an `Option T`; `nil` is `none`;
* a Go `int64` / `int` is an `Int` (the code only copies and compares these
  values, it never does arithmetic on them);
* a Go `string` is a `String`; the code only compares with `""` and
  concatenates;
* every accessor returns an `Option`: `none` stands for the run-time panic of
  reading a field through a nil pointer, `some v` for a normal return of `v`.
  A field read `p.F` through a pointer `p` is written `(← p).F`, so the
  presence test and the read stay two separate steps, as in the source.
-/

namespace Gotgbot

/-- Modelled from the spec: the declaration of type `User` is not among the
sources. It carries the fields that `sender.go` reads through `Sender.User`. -/
structure User where
  Id : Int
  IsBot : Bool
  FirstName : String
  LastName : String
  Username : String
deriving DecidableEq, Repr

/-- Modelled from the spec: the declaration of type `Chat` is not among the
sources. It carries the fields that `sender.go` reads through `Sender.Chat`
and `Message.Chat`. -/
structure Chat where
  Id : Int
  Title : String
  Username : String
deriving DecidableEq, Repr

/-- Modelled from the spec: the declaration of type `Message` is not among the
sources. It carries the fields that `GetSender` reads: `From` (optional user),
`SenderChat` (optional chat), `IsAutomaticForward` and `Chat`, the hosting
chat, which is a value and so always present. -/
structure Message where
  From : Option User
  SenderChat : Option Chat
  IsAutomaticForward : Bool
  Chat : Chat
deriving DecidableEq, Repr

/-- The `Sender` struct of `sender.go`. -/
structure Sender where
  User : Option User
  Chat : Option Chat
  IsAutomaticForward : Bool
  ChatId : Int
deriving DecidableEq, Repr

/-- The method `Message.GetSender`. The result is the address of a fresh
struct literal, which is never nil, so it is given as a plain `Sender`. -/
def Message.GetSender (m : Message) : Sender :=
  { User := m.From
    Chat := m.SenderChat
    IsAutomaticForward := m.IsAutomaticForward
    ChatId := m.Chat.Id }

/-- The method `Sender.Id`. -/
def Sender.Id (s : Sender) : Option Int :=
  if s.Chat.isSome then do
    pure (← s.Chat).Id
  else if s.User.isSome then do
    pure (← s.User).Id
  else
    pure 0

/-- The method `Sender.Username`. -/
def Sender.Username (s : Sender) : Option String :=
  if s.Chat.isSome then do
    pure (← s.Chat).Username
  else if s.User.isSome then do
    pure (← s.User).Username
  else
    pure ""

/-- The method `Sender.Name`. -/
def Sender.Name (s : Sender) : Option String :=
  if s.Chat.isSome then do
    pure (← s.Chat).Title
  else if s.User.isSome then do
    if (← s.User).LastName == "" then
      pure (← s.User).FirstName
    else
      pure ((← s.User).FirstName ++ " " ++ (← s.User).LastName)
  else
    pure ""

/-- The method `Sender.FirstName`. -/
def Sender.FirstName (s : Sender) : Option String :=
  if s.Chat.isSome then do
    pure (← s.Chat).Title
  else if s.User.isSome then do
    pure (← s.User).FirstName
  else
    pure ""

/-- The method `Sender.LastName`. -/
def Sender.LastName (s : Sender) : Option String :=
  if s.Chat.isSome then
    pure ""
  else if s.User.isSome then do
    pure (← s.User).LastName
  else
    pure ""

/-- The method `Sender.IsUser`: `s.Chat == nil && s.User != nil`. -/
def Sender.IsUser (s : Sender) : Option Bool :=
  pure (s.Chat.isNone && s.User.isSome)

/-- The method `Sender.IsBot`: `s.Chat == nil && s.User != nil && s.User.IsBot`.
The operator `&&` evaluates its right operand only when the left one is true. -/
def Sender.IsBot (s : Sender) : Option Bool :=
  if s.Chat.isNone && s.User.isSome then do
    pure (← s.User).IsBot
  else
    pure false

/-- The method `Sender.IsAnonymousAdmin`:
`s.Chat != nil && s.Chat.Id == s.ChatId`. -/
def Sender.IsAnonymousAdmin (s : Sender) : Option Bool :=
  if s.Chat.isSome then do
    pure ((← s.Chat).Id == s.ChatId)
  else
    pure false

/-- The method `Sender.IsAnonymousChannel`:
`s.Chat != nil && s.Chat.Id != s.ChatId && !s.IsAutomaticForward`. -/
def Sender.IsAnonymousChannel (s : Sender) : Option Bool :=
  if s.Chat.isSome then do
    if (← s.Chat).Id != s.ChatId then
      pure (!s.IsAutomaticForward)
    else
      pure false
  else
    pure false

/-- The method `Sender.IsLinkedChannel`:
`s.Chat != nil && s.Chat.Id != s.ChatId && s.IsAutomaticForward`. -/
def Sender.IsLinkedChannel (s : Sender) : Option Bool :=
  if s.Chat.isSome then do
    if (← s.Chat).Id != s.ChatId then
      pure s.IsAutomaticForward
    else
      pure false
  else
    pure false

/-- The `Update` struct of `handler.go`. The payload types are declared in the
packages `types` and `ext`, which are not among the sources; they are the type
parameters `Msg` (types.Message), `CIR` (types.ChosenInlineResult), `CBQ`
(types.CallbackQuery), `SQ` (types.ShippingQuery), `PCQ`
(types.PreCheckoutQuery) and `EMsg` (ext.Message). -/
structure Update (Msg CIR CBQ SQ PCQ EMsg : Type) where
  UpdateId : Int
  Message : Option Msg
  EditedMessage : Option Msg
  ChannelPost : Option Msg
  EditedChannelPost : Option Msg
  InlineQuery : Option Msg
  ChosenInlineResult : Option CIR
  CallbackQuery : Option CBQ
  ShippingQuery : Option SQ
  PreCheckoutQuery : Option PCQ
  EffectiveMessage : Option EMsg

/-- Modelled from the spec: the code that fills `Update.EffectiveMessage` is
not among the sources (`handler.go` only declares the field). Following
section 4.2, the field is set from the first non-absent of `Message`,
`EditedMessage`, `ChannelPost`, `EditedChannelPost`, tried in that order, and
is left absent when none of them is set; the other fields are kept. The
conversion `wrap` from a `types.Message` to an `ext.Message` is not among the
sources either and is a parameter. -/
def Update.resolveEffectiveMessage {Msg CIR CBQ SQ PCQ EMsg : Type}
    (wrap : Msg → EMsg) (u : Update Msg CIR CBQ SQ PCQ EMsg) :
    Update Msg CIR CBQ SQ PCQ EMsg :=
  if u.Message.isSome then
    { u with EffectiveMessage := u.Message.map wrap }
  else if u.EditedMessage.isSome then
    { u with EffectiveMessage := u.EditedMessage.map wrap }
  else if u.ChannelPost.isSome then
    { u with EffectiveMessage := u.ChannelPost.map wrap }
  else if u.EditedChannelPost.isSome then
    { u with EffectiveMessage := u.EditedChannelPost.map wrap }
  else
    { u with EffectiveMessage := none }

/-- The results of the four classification predicates on a sender, in the
order `IsUser`, `IsAnonymousAdmin`, `IsAnonymousChannel`, `IsLinkedChannel`. -/
def Sender.classes (s : Sender) : List (Option Bool) :=
  [s.IsUser, s.IsAnonymousAdmin, s.IsAnonymousChannel, s.IsLinkedChannel]

/-- The results of the three predicates that classify a chat sender, in the
order `IsAnonymousAdmin`, `IsAnonymousChannel`, `IsLinkedChannel`. -/
def Sender.chatClasses (s : Sender) : List (Option Bool) :=
  [s.IsAnonymousAdmin, s.IsAnonymousChannel, s.IsLinkedChannel]

/-! ## Sample values -/

/-- A human user with id 1. -/
def sampleUser : User :=
  { Id := 1, IsBot := false, FirstName := "Ada", LastName := "Byron", Username := "ada" }

/-- A bot user with id 2 and no last name. -/
def sampleBot : User :=
  { Id := 2, IsBot := true, FirstName := "Helper", LastName := "", Username := "helper_bot" }

/-- The hosting group, id 100. -/
def sampleGroup : Chat :=
  { Id := 100, Title := "Group", Username := "group" }

/-- A channel with id 200 and username `news`. -/
def sampleChannel : Chat :=
  { Id := 200, Title := "News", Username := "news" }

/-- The first scenario of the spec: an admin posting anonymously in group 100,
with a user filled in next to the sender chat. -/
def msgAnonymousAdmin : Message :=
  { From := some sampleUser, SenderChat := some sampleGroup,
    IsAutomaticForward := false, Chat := sampleGroup }

/-- The second scenario of the spec: a post of channel 200 forwarded
automatically into group 100. -/
def msgLinkedChannel : Message :=
  { From := none, SenderChat := some sampleChannel,
    IsAutomaticForward := true, Chat := sampleGroup }

/-- Channel 200 posting in group 100 without the forward flag. -/
def msgAnonymousChannel : Message :=
  { From := none, SenderChat := some sampleChannel,
    IsAutomaticForward := false, Chat := sampleGroup }

/-- An ordinary message of a human user in group 100. -/
def msgFromUser : Message :=
  { From := some sampleUser, SenderChat := none,
    IsAutomaticForward := false, Chat := sampleGroup }

/-- An ordinary message of a bot in group 100. -/
def msgFromBot : Message :=
  { From := some sampleBot, SenderChat := none,
    IsAutomaticForward := false, Chat := sampleGroup }

/-- A message with neither a user nor a sender chat. -/
def msgNoSender : Message :=
  { From := none, SenderChat := none,
    IsAutomaticForward := false, Chat := sampleGroup }

/-- A sender chat with a placeholder user whose bot flag is set. -/
def senderChatWithBot : Sender :=
  { User := some sampleBot, Chat := some sampleChannel,
    IsAutomaticForward := true, ChatId := 100 }

/-- The sender chat of `senderChatWithBot` with a human user next to it. -/
def senderChatWithHuman : Sender :=
  { User := some sampleUser, Chat := some sampleChannel,
    IsAutomaticForward := true, ChatId := 100 }

/-- The sender chat of `senderChatWithBot` with no user next to it. -/
def senderChatAlone : Sender :=
  { User := none, Chat := some sampleChannel,
    IsAutomaticForward := true, ChatId := 100 }

/-- A message with neither a user nor a sender chat, flagged as an automatic
forward, in chat 200. -/
def msgNoSenderForward : Message :=
  { From := none, SenderChat := none,
    IsAutomaticForward := true, Chat := sampleChannel }

/-- An update over natural numbers as payloads, with only the edited channel
post set. -/
def updOnlyEditedChannelPost : Update Nat Unit Unit Unit Unit Nat :=
  { UpdateId := 7, Message := none, EditedMessage := none, ChannelPost := none,
    EditedChannelPost := some 41, InlineQuery := none, ChosenInlineResult := none,
    CallbackQuery := none, ShippingQuery := none, PreCheckoutQuery := none,
    EffectiveMessage := none }

/-- An update with both the message and the edited message set. -/
def updMessageAndEdited : Update Nat Unit Unit Unit Unit Nat :=
  { UpdateId := 8, Message := some 11, EditedMessage := some 12, ChannelPost := none,
    EditedChannelPost := none, InlineQuery := none, ChosenInlineResult := none,
    CallbackQuery := none, ShippingQuery := none, PreCheckoutQuery := none,
    EffectiveMessage := none }

/-- An update that carries an inline query and no message. -/
def updInlineQuery : Update Nat Unit Unit Unit Unit Nat :=
  { UpdateId := 9, Message := none, EditedMessage := none, ChannelPost := none,
    EditedChannelPost := none, InlineQuery := some 5, ChosenInlineResult := none,
    CallbackQuery := none, ShippingQuery := none, PreCheckoutQuery := none,
    EffectiveMessage := none }

/-! ## Sender identity -/

/-- C1: `Id` is the id of the chat when a chat is present, whether or not a
user is present too; otherwise the id of the user when a user is present;
otherwise 0. -/
theorem C1_Id_prefers_chat (s : Sender) :
    (∀ c : Chat, s.Chat = some c → s.Id = some c.Id) ∧
    (∀ u : User, s.Chat = none → s.User = some u → s.Id = some u.Id) ∧
    (s.Chat = none → s.User = none → s.Id = some 0) := by
  rcases s with ⟨user, chat, fwd, cid⟩
  refine ⟨?_, ?_, ?_⟩
  · rintro c rfl
    simp [Sender.Id]
  · rintro u rfl rfl
    simp [Sender.Id]
  · rintro rfl rfl
    simp [Sender.Id]

/-- The three branches of C1 on the sample messages: chat 100 next to user 1
gives 100, user 1 alone gives 1, no sender gives 0. -/
theorem C1_Id_prefers_chat_witness :
    msgAnonymousAdmin.GetSender.Id = some 100 ∧
    msgFromUser.GetSender.Id = some 1 ∧
    msgNoSender.GetSender.Id = some 0 :=
  ⟨(C1_Id_prefers_chat msgAnonymousAdmin.GetSender).1 sampleGroup rfl,
   (C1_Id_prefers_chat msgFromUser.GetSender).2.1 sampleUser rfl rfl,
   (C1_Id_prefers_chat msgNoSender.GetSender).2.2 rfl rfl⟩

/-! ## Classification of chat senders -/

/-- C2: a message whose sender chat is the hosting chat comes from an
anonymous admin and from neither kind of channel, whatever `From` and
`IsAutomaticForward` are; and `IsAnonymousAdmin` returns true exactly when a
chat is present with `Chat.Id = ChatId`, and false in every other case. -/
theorem C2_IsAnonymousAdmin_iff :
    (∀ (m : Message) (c : Chat), m.SenderChat = some c → c.Id = m.Chat.Id →
      m.GetSender.IsAnonymousAdmin = some true ∧
      m.GetSender.IsAnonymousChannel = some false ∧
      m.GetSender.IsLinkedChannel = some false) ∧
    (∀ s : Sender,
      (s.IsAnonymousAdmin = some true ↔ ∃ c, s.Chat = some c ∧ c.Id = s.ChatId) ∧
      (s.IsAnonymousAdmin = some false ↔ ¬ ∃ c, s.Chat = some c ∧ c.Id = s.ChatId)) := by
  constructor
  · rintro ⟨from_, sc, fwd, host⟩ c h hid
    simp only at h hid
    subst h
    simp [Message.GetSender, Sender.IsAnonymousAdmin, Sender.IsAnonymousChannel,
      Sender.IsLinkedChannel, hid]
  · rintro ⟨user, chat, fwd, cid⟩
    cases chat <;> simp [Sender.IsAnonymousAdmin]

/-- C2 on the first scenario of the spec (sender chat 100 in chat 100, with a
user filled in). -/
theorem C2_IsAnonymousAdmin_iff_witness :
    msgAnonymousAdmin.GetSender.IsAnonymousAdmin = some true ∧
    msgAnonymousAdmin.GetSender.IsAnonymousChannel = some false ∧
    msgAnonymousAdmin.GetSender.IsLinkedChannel = some false :=
  C2_IsAnonymousAdmin_iff.1 msgAnonymousAdmin sampleGroup rfl rfl

/-- C3: a message whose sender chat differs from the hosting chat and which is
not an automatic forward comes from an anonymous channel; and
`IsAnonymousChannel` returns true exactly when a chat is present,
`Chat.Id ≠ ChatId` and `IsAutomaticForward` is false, and false in every other
case. -/
theorem C3_IsAnonymousChannel_iff :
    (∀ (m : Message) (c : Chat), m.SenderChat = some c → c.Id ≠ m.Chat.Id →
      m.IsAutomaticForward = false →
      m.GetSender.IsAnonymousChannel = some true) ∧
    (∀ s : Sender,
      (s.IsAnonymousChannel = some true ↔
        ∃ c, s.Chat = some c ∧ c.Id ≠ s.ChatId ∧ s.IsAutomaticForward = false) ∧
      (s.IsAnonymousChannel = some false ↔
        ¬ ∃ c, s.Chat = some c ∧ c.Id ≠ s.ChatId ∧ s.IsAutomaticForward = false)) := by
  constructor
  · rintro ⟨from_, sc, fwd, host⟩ c h hid hf
    simp only at h hid hf
    subst h hf
    simp [Message.GetSender, Sender.IsAnonymousChannel, hid]
  · rintro ⟨user, chat, fwd, cid⟩
    cases chat with
    | none => simp [Sender.IsAnonymousChannel]
    | some c =>
      by_cases hid : c.Id = cid <;> cases fwd <;>
        simp [Sender.IsAnonymousChannel, hid]

/-- C3 on channel 200 posting in group 100 without the forward flag. -/
theorem C3_IsAnonymousChannel_iff_witness :
    msgAnonymousChannel.GetSender.IsAnonymousChannel = some true :=
  C3_IsAnonymousChannel_iff.1 msgAnonymousChannel sampleChannel rfl (by decide) rfl

/-- C4: a message whose sender chat differs from the hosting chat and which is
an automatic forward comes from a linked channel; and `IsLinkedChannel`
returns true exactly when a chat is present, `Chat.Id ≠ ChatId` and
`IsAutomaticForward` is true, and false in every other case. -/
theorem C4_IsLinkedChannel_iff :
    (∀ (m : Message) (c : Chat), m.SenderChat = some c → c.Id ≠ m.Chat.Id →
      m.IsAutomaticForward = true →
      m.GetSender.IsLinkedChannel = some true) ∧
    (∀ s : Sender,
      (s.IsLinkedChannel = some true ↔
        ∃ c, s.Chat = some c ∧ c.Id ≠ s.ChatId ∧ s.IsAutomaticForward = true) ∧
      (s.IsLinkedChannel = some false ↔
        ¬ ∃ c, s.Chat = some c ∧ c.Id ≠ s.ChatId ∧ s.IsAutomaticForward = true)) := by
  constructor
  · rintro ⟨from_, sc, fwd, host⟩ c h hid hf
    simp only at h hid hf
    subst h hf
    simp [Message.GetSender, Sender.IsLinkedChannel, hid]
  · rintro ⟨user, chat, fwd, cid⟩
    cases chat with
    | none => simp [Sender.IsLinkedChannel]
    | some c =>
      by_cases hid : c.Id = cid <;> cases fwd <;>
        simp [Sender.IsLinkedChannel, hid]

/-- C4 on the second scenario of the spec (chat 100, sender chat 200,
automatic forward). -/
theorem C4_IsLinkedChannel_iff_witness :
    msgLinkedChannel.GetSender.IsLinkedChannel = some true :=
  C4_IsLinkedChannel_iff.1 msgLinkedChannel sampleChannel rfl (by decide) rfl

/-! ## Classification of user senders -/

/-- C5: `IsUser` returns true exactly when the chat is absent and a user is
present, and false in every other case; the bot flag of the user plays no
part, so a bot counts as a user; in particular the sender of a message without
a sender chat and with `From` present is a user. -/
theorem C5_IsUser_iff :
    (∀ s : Sender,
      (s.IsUser = some true ↔ s.Chat = none ∧ ∃ u, s.User = some u) ∧
      (s.IsUser = some false ↔ ¬ (s.Chat = none ∧ ∃ u, s.User = some u))) ∧
    (∀ (s : Sender) (u : User) (b : Bool),
      Sender.IsUser { s with User := some { u with IsBot := b } } =
        Sender.IsUser { s with User := some u }) ∧
    (∀ (m : Message) (u : User), m.SenderChat = none → m.From = some u →
      m.GetSender.IsUser = some true) := by
  refine ⟨?_, ?_, ?_⟩
  · rintro ⟨user, chat, fwd, cid⟩
    cases user <;> cases chat <;> simp [Sender.IsUser]
  · intro s u b
    simp [Sender.IsUser]
  · rintro ⟨from_, sc, fwd, host⟩ u h hu
    simp only at h hu
    subst h hu
    simp [Message.GetSender, Sender.IsUser]

/-- C5 on a message sent by a bot: the bot is classified as a user. -/
theorem C5_IsUser_iff_witness :
    sampleBot.IsBot = true ∧ msgFromBot.GetSender.IsUser = some true :=
  ⟨rfl, C5_IsUser_iff.2.2 msgFromBot sampleBot rfl rfl⟩

/-- C6: `IsBot` returns true exactly when the chat is absent, a user is
present and the bot flag of the user is set, and false in every other case; so
it is false whenever a chat is present, whatever the user next to it; and for
a message without a sender chat and with `From` present it is the bot flag of
`From`. -/
theorem C6_IsBot_iff :
    (∀ s : Sender,
      (s.IsBot = some true ↔
        s.Chat = none ∧ ∃ u, s.User = some u ∧ u.IsBot = true) ∧
      (s.IsBot = some false ↔
        ¬ (s.Chat = none ∧ ∃ u, s.User = some u ∧ u.IsBot = true))) ∧
    (∀ (s : Sender) (c : Chat), s.Chat = some c → s.IsBot = some false) ∧
    (∀ (m : Message) (u : User), m.SenderChat = none → m.From = some u →
      m.GetSender.IsBot = some u.IsBot) := by
  refine ⟨?_, ?_, ?_⟩
  · rintro ⟨user, chat, fwd, cid⟩
    cases user <;> cases chat <;> simp [Sender.IsBot]
  · rintro ⟨user, chat, fwd, cid⟩ c h
    simp only at h
    subst h
    simp [Sender.IsBot]
  · rintro ⟨from_, sc, fwd, host⟩ u h hu
    simp only at h hu
    subst h hu
    simp [Message.GetSender, Sender.IsBot]

/-- C6 on a chat sender with a bot placeholder (not a bot) and on the messages
of a bot and of a human (the flag of `From`). -/
theorem C6_IsBot_iff_witness :
    senderChatWithBot.IsBot = some false ∧
    msgFromBot.GetSender.IsBot = some true ∧
    msgFromUser.GetSender.IsBot = some false :=
  ⟨C6_IsBot_iff.2.1 senderChatWithBot sampleChannel rfl,
   C6_IsBot_iff.2.2 msgFromBot sampleBot rfl rfl,
   C6_IsBot_iff.2.2 msgFromUser sampleUser rfl rfl⟩

/-! ## Names -/

/-- C7: `Name` is the title of the chat when a chat is present; otherwise,
when a user is present, the first name, a space and the last name if the last
name is non-empty, and exactly the first name if the last name is empty;
otherwise the empty string. -/
theorem C7_Name_rule (s : Sender) :
    (∀ c : Chat, s.Chat = some c → s.Name = some c.Title) ∧
    (∀ u : User, s.Chat = none → s.User = some u → u.LastName ≠ "" →
      s.Name = some (u.FirstName ++ " " ++ u.LastName)) ∧
    (∀ u : User, s.Chat = none → s.User = some u → u.LastName = "" →
      s.Name = some u.FirstName) ∧
    (s.Chat = none → s.User = none → s.Name = some "") := by
  rcases s with ⟨user, chat, fwd, cid⟩
  refine ⟨?_, ?_, ?_, ?_⟩
  · rintro c rfl
    simp [Sender.Name]
  · rintro u rfl rfl hl
    simp [Sender.Name, hl]
  · rintro u rfl rfl hl
    simp [Sender.Name, hl]
  · rintro rfl rfl
    simp [Sender.Name]

/-- The four branches of C7 on the sample messages. -/
theorem C7_Name_rule_witness :
    msgLinkedChannel.GetSender.Name = some "News" ∧
    msgFromUser.GetSender.Name = some "Ada Byron" ∧
    msgFromBot.GetSender.Name = some "Helper" ∧
    msgNoSender.GetSender.Name = some "" :=
  ⟨(C7_Name_rule msgLinkedChannel.GetSender).1 sampleChannel rfl,
   (C7_Name_rule msgFromUser.GetSender).2.1 sampleUser rfl rfl (by decide),
   (C7_Name_rule msgFromBot.GetSender).2.2.1 sampleBot rfl rfl rfl,
   (C7_Name_rule msgNoSender.GetSender).2.2.2 rfl rfl⟩

/-! ## The effective message of an update -/

/-- C8: the effective message of an update is the first non-absent of
`Message`, `EditedMessage`, `ChannelPost`, `EditedChannelPost`, in that
order, and is absent when all four are absent: with only `EditedChannelPost`
set it is that post, and with both `Message` and `EditedMessage` set it is
`Message`. -/
theorem C8_EffectiveMessage_precedence {Msg CIR CBQ SQ PCQ EMsg : Type}
    (wrap : Msg → EMsg) (u : Update Msg CIR CBQ SQ PCQ EMsg) :
    (u.resolveEffectiveMessage wrap).EffectiveMessage =
        ([u.Message, u.EditedMessage, u.ChannelPost, u.EditedChannelPost].findSome? id).map wrap ∧
    (u.Message = none → u.EditedMessage = none → u.ChannelPost = none →
      u.EditedChannelPost = none →
      (u.resolveEffectiveMessage wrap).EffectiveMessage = none) ∧
    (∀ p : Msg, u.Message = none → u.EditedMessage = none → u.ChannelPost = none →
      u.EditedChannelPost = some p →
      (u.resolveEffectiveMessage wrap).EffectiveMessage = some (wrap p)) ∧
    (∀ a b : Msg, u.Message = some a → u.EditedMessage = some b →
      (u.resolveEffectiveMessage wrap).EffectiveMessage = some (wrap a)) := by
  rcases u with ⟨uid, m, em, cp, ecp, iq, cir, cbq, sq, pcq, eff⟩
  refine ⟨?_, ?_, ?_, ?_⟩
  · cases m <;> cases em <;> cases cp <;> cases ecp <;>
      simp [Update.resolveEffectiveMessage, List.findSome?]
  · rintro rfl rfl rfl rfl
    simp [Update.resolveEffectiveMessage]
  · rintro p rfl rfl rfl rfl
    simp [Update.resolveEffectiveMessage]
  · rintro a b rfl rfl
    simp [Update.resolveEffectiveMessage]

/-- C8 on three updates: only the edited channel post set, both the message
and the edited message set, and an inline query without any message. -/
theorem C8_EffectiveMessage_precedence_witness :
    (updOnlyEditedChannelPost.resolveEffectiveMessage id).EffectiveMessage = some 41 ∧
    (updMessageAndEdited.resolveEffectiveMessage id).EffectiveMessage = some 11 ∧
    (updInlineQuery.resolveEffectiveMessage id).EffectiveMessage = none :=
  ⟨(C8_EffectiveMessage_precedence id updOnlyEditedChannelPost).2.2.1 41 rfl rfl rfl rfl,
   (C8_EffectiveMessage_precedence id updMessageAndEdited).2.2.2 11 12 rfl rfl,
   (C8_EffectiveMessage_precedence id updInlineQuery).2.1 rfl rfl rfl rfl⟩

/-! ## Construction of the sender -/

/-- C9: `GetSender` copies `From` into `User`, `SenderChat` into `Chat`,
`IsAutomaticForward` into `IsAutomaticForward` and the id of the hosting chat
into `ChatId`, unchanged. -/
theorem C9_GetSender_copies (m : Message) :
    m.GetSender.User = m.From ∧
    m.GetSender.Chat = m.SenderChat ∧
    m.GetSender.IsAutomaticForward = m.IsAutomaticForward ∧
    m.GetSender.ChatId = m.Chat.Id :=
  ⟨rfl, rfl, rfl, rfl⟩

/-! ## Username -/

/-- C10: `Username` is the username of the chat when a chat is present,
whether or not a user is present too; otherwise the username of the user when
a user is present; otherwise the empty string. -/
theorem C10_Username_prefers_chat (s : Sender) :
    (∀ c : Chat, s.Chat = some c → s.Username = some c.Username) ∧
    (∀ u : User, s.Chat = none → s.User = some u → s.Username = some u.Username) ∧
    (s.Chat = none → s.User = none → s.Username = some "") := by
  rcases s with ⟨user, chat, fwd, cid⟩
  refine ⟨?_, ?_, ?_⟩
  · rintro c rfl
    simp [Sender.Username]
  · rintro u rfl rfl
    simp [Sender.Username]
  · rintro rfl rfl
    simp [Sender.Username]

/-- The three branches of C10: the second scenario of the spec gives `news`, a
chat next to a user gives the username of the chat, a user alone gives the
username of the user, no sender gives the empty string. -/
theorem C10_Username_prefers_chat_witness :
    msgLinkedChannel.GetSender.Username = some "news" ∧
    senderChatWithBot.Username = some "news" ∧
    msgFromUser.GetSender.Username = some "ada" ∧
    msgNoSender.GetSender.Username = some "" :=
  ⟨(C10_Username_prefers_chat msgLinkedChannel.GetSender).1 sampleChannel rfl,
   (C10_Username_prefers_chat senderChatWithBot).1 sampleChannel rfl,
   (C10_Username_prefers_chat msgFromUser.GetSender).2.1 sampleUser rfl rfl,
   (C10_Username_prefers_chat msgNoSender.GetSender).2.2 rfl rfl⟩

/-! ## Last name and first name -/

/-- C11: `LastName` is the empty string whenever a chat is present, also when
a user with a non-empty last name is present next to it; otherwise it is the
last name of the user when a user is present; otherwise the empty string. -/
theorem C11_LastName_rule (s : Sender) :
    (∀ c : Chat, s.Chat = some c → s.LastName = some "") ∧
    (∀ u : User, s.Chat = none → s.User = some u → s.LastName = some u.LastName) ∧
    (s.Chat = none → s.User = none → s.LastName = some "") := by
  rcases s with ⟨user, chat, fwd, cid⟩
  refine ⟨?_, ?_, ?_⟩
  · rintro c rfl
    simp [Sender.LastName]
  · rintro u rfl rfl
    simp [Sender.LastName]
  · rintro rfl rfl
    simp [Sender.LastName]

/-- The three branches of C11: a chat next to the user Ada Byron gives the
empty string, the user alone gives `Byron`, no sender gives the empty
string. -/
theorem C11_LastName_rule_witness :
    sampleUser.LastName ≠ "" ∧
    senderChatWithHuman.LastName = some "" ∧
    msgFromUser.GetSender.LastName = some "Byron" ∧
    msgNoSender.GetSender.LastName = some "" :=
  ⟨by decide,
   (C11_LastName_rule senderChatWithHuman).1 sampleChannel rfl,
   (C11_LastName_rule msgFromUser.GetSender).2.1 sampleUser rfl rfl,
   (C11_LastName_rule msgNoSender.GetSender).2.2 rfl rfl⟩

/-- C12: `FirstName` is the title of the chat when a chat is present;
otherwise the first name of the user when a user is present; otherwise the
empty string. -/
theorem C12_FirstName_rule (s : Sender) :
    (∀ c : Chat, s.Chat = some c → s.FirstName = some c.Title) ∧
    (∀ u : User, s.Chat = none → s.User = some u → s.FirstName = some u.FirstName) ∧
    (s.Chat = none → s.User = none → s.FirstName = some "") := by
  rcases s with ⟨user, chat, fwd, cid⟩
  refine ⟨?_, ?_, ?_⟩
  · rintro c rfl
    simp [Sender.FirstName]
  · rintro u rfl rfl
    simp [Sender.FirstName]
  · rintro rfl rfl
    simp [Sender.FirstName]

/-- The three branches of C12 on a chat sender, a user sender and no
sender. -/
theorem C12_FirstName_rule_witness :
    senderChatWithHuman.FirstName = some "News" ∧
    msgFromUser.GetSender.FirstName = some "Ada" ∧
    msgNoSender.GetSender.FirstName = some "" :=
  ⟨(C12_FirstName_rule senderChatWithHuman).1 sampleChannel rfl,
   (C12_FirstName_rule msgFromUser.GetSender).2.1 sampleUser rfl rfl,
   (C12_FirstName_rule msgNoSender.GetSender).2.2 rfl rfl⟩

/-! ## Messages without a sender -/

/-- C13: for a message with both the sender chat and `From` absent, whatever
its chat id and forward flag, the sender has id 0, an empty username, an empty
name, and is not a user. -/
theorem C13_no_sender_defaults (m : Message)
    (hc : m.SenderChat = none) (hu : m.From = none) :
    m.GetSender.Id = some 0 ∧
    m.GetSender.Username = some "" ∧
    m.GetSender.Name = some "" ∧
    m.GetSender.IsUser = some false := by
  rcases m with ⟨from_, sc, fwd, host⟩
  simp only at hc hu
  subst hc hu
  simp [Message.GetSender, Sender.Id, Sender.Username, Sender.Name, Sender.IsUser]

/-- C13 on a message without sender that is flagged as an automatic forward
and sits in chat 200. -/
theorem C13_no_sender_defaults_witness :
    msgNoSenderForward.GetSender.Id = some 0 ∧
    msgNoSenderForward.GetSender.Username = some "" ∧
    msgNoSenderForward.GetSender.Name = some "" ∧
    msgNoSenderForward.GetSender.IsUser = some false :=
  C13_no_sender_defaults msgNoSenderForward rfl rfl

/-! ## Totality -/

/-- C14: every accessor returns normally on every sender, whichever of the
user and the chat are present, so no read through an absent user or chat is
ever reached; the same holds on the sender that `GetSender` builds from any
message. -/
theorem C14_accessors_total :
    (∀ s : Sender,
      (∃ v, s.Id = some v) ∧ (∃ v, s.Username = some v) ∧ (∃ v, s.Name = some v) ∧
      (∃ v, s.FirstName = some v) ∧ (∃ v, s.LastName = some v) ∧
      (∃ v, s.IsUser = some v) ∧ (∃ v, s.IsBot = some v) ∧
      (∃ v, s.IsAnonymousAdmin = some v) ∧ (∃ v, s.IsAnonymousChannel = some v) ∧
      (∃ v, s.IsLinkedChannel = some v)) ∧
    (∀ m : Message,
      (∃ v, m.GetSender.Id = some v) ∧ (∃ v, m.GetSender.Username = some v) ∧
      (∃ v, m.GetSender.Name = some v) ∧ (∃ v, m.GetSender.FirstName = some v) ∧
      (∃ v, m.GetSender.LastName = some v) ∧ (∃ v, m.GetSender.IsUser = some v) ∧
      (∃ v, m.GetSender.IsBot = some v) ∧ (∃ v, m.GetSender.IsAnonymousAdmin = some v) ∧
      (∃ v, m.GetSender.IsAnonymousChannel = some v) ∧
      (∃ v, m.GetSender.IsLinkedChannel = some v)) := by
  have key : ∀ s : Sender,
      (∃ v, s.Id = some v) ∧ (∃ v, s.Username = some v) ∧ (∃ v, s.Name = some v) ∧
      (∃ v, s.FirstName = some v) ∧ (∃ v, s.LastName = some v) ∧
      (∃ v, s.IsUser = some v) ∧ (∃ v, s.IsBot = some v) ∧
      (∃ v, s.IsAnonymousAdmin = some v) ∧ (∃ v, s.IsAnonymousChannel = some v) ∧
      (∃ v, s.IsLinkedChannel = some v) := by
    rintro ⟨user, chat, fwd, cid⟩
    refine ⟨?_, ?_, ?_, ?_, ?_, ?_, ?_, ?_, ?_, ?_⟩
    · cases user <;> cases chat <;> simp [Sender.Id]
    · cases user <;> cases chat <;> simp [Sender.Username]
    · cases user <;> cases chat <;> simp [Sender.Name]
      split <;> simp
    · cases user <;> cases chat <;> simp [Sender.FirstName]
    · cases user <;> cases chat <;> simp [Sender.LastName]
    · simp [Sender.IsUser]
    · cases user <;> cases chat <;> simp [Sender.IsBot]
    · cases chat <;> simp [Sender.IsAnonymousAdmin]
    · cases chat with
      | none => simp [Sender.IsAnonymousChannel]
      | some c =>
        by_cases hid : c.Id = cid <;> cases fwd <;> simp [Sender.IsAnonymousChannel, hid]
    · cases chat with
      | none => simp [Sender.IsLinkedChannel]
      | some c =>
        by_cases hid : c.Id = cid <;> cases fwd <;> simp [Sender.IsLinkedChannel, hid]
  exact ⟨key, fun m => key m.GetSender⟩

/-! ## Priority of the chat over the user -/

/-- C15: two senders with the same present chat, the same `ChatId` and the
same `IsAutomaticForward` give equal results in all ten accessors, whatever
their `User` fields are. -/
theorem C15_chat_hides_user (s t : Sender) (c : Chat)
    (hs : s.Chat = some c) (ht : t.Chat = some c)
    (hid : s.ChatId = t.ChatId)
    (hfwd : s.IsAutomaticForward = t.IsAutomaticForward) :
    s.Id = t.Id ∧ s.Username = t.Username ∧ s.Name = t.Name ∧
    s.FirstName = t.FirstName ∧ s.LastName = t.LastName ∧
    s.IsUser = t.IsUser ∧ s.IsBot = t.IsBot ∧
    s.IsAnonymousAdmin = t.IsAnonymousAdmin ∧
    s.IsAnonymousChannel = t.IsAnonymousChannel ∧
    s.IsLinkedChannel = t.IsLinkedChannel := by
  rcases s with ⟨su, sc, sf, sid⟩
  rcases t with ⟨tu, tc, tf, tid⟩
  simp only at hs ht hid hfwd
  subst hs ht hid hfwd
  simp [Sender.Id, Sender.Username, Sender.Name, Sender.FirstName, Sender.LastName,
    Sender.IsUser, Sender.IsBot, Sender.IsAnonymousAdmin, Sender.IsAnonymousChannel,
    Sender.IsLinkedChannel]

/-- C15 on one chat sender with a bot, with a human and with no user next to
it: the bot and the human agree, and so do the human and the absent user. -/
theorem C15_chat_hides_user_witness :
    (senderChatWithBot.Id = senderChatWithHuman.Id ∧
      senderChatWithBot.Username = senderChatWithHuman.Username ∧
      senderChatWithBot.Name = senderChatWithHuman.Name ∧
      senderChatWithBot.FirstName = senderChatWithHuman.FirstName ∧
      senderChatWithBot.LastName = senderChatWithHuman.LastName ∧
      senderChatWithBot.IsUser = senderChatWithHuman.IsUser ∧
      senderChatWithBot.IsBot = senderChatWithHuman.IsBot ∧
      senderChatWithBot.IsAnonymousAdmin = senderChatWithHuman.IsAnonymousAdmin ∧
      senderChatWithBot.IsAnonymousChannel = senderChatWithHuman.IsAnonymousChannel ∧
      senderChatWithBot.IsLinkedChannel = senderChatWithHuman.IsLinkedChannel) ∧
    (senderChatWithHuman.Id = senderChatAlone.Id ∧
      senderChatWithHuman.Username = senderChatAlone.Username ∧
      senderChatWithHuman.Name = senderChatAlone.Name ∧
      senderChatWithHuman.FirstName = senderChatAlone.FirstName ∧
      senderChatWithHuman.LastName = senderChatAlone.LastName ∧
      senderChatWithHuman.IsUser = senderChatAlone.IsUser ∧
      senderChatWithHuman.IsBot = senderChatAlone.IsBot ∧
      senderChatWithHuman.IsAnonymousAdmin = senderChatAlone.IsAnonymousAdmin ∧
      senderChatWithHuman.IsAnonymousChannel = senderChatAlone.IsAnonymousChannel ∧
      senderChatWithHuman.IsLinkedChannel = senderChatAlone.IsLinkedChannel) :=
  ⟨C15_chat_hides_user senderChatWithBot senderChatWithHuman sampleChannel rfl rfl rfl rfl,
   C15_chat_hides_user senderChatWithHuman senderChatAlone sampleChannel rfl rfl rfl rfl⟩

/-! ## The classification is a partition -/

/-- C16: on a sender with a chat or a user present exactly one of `IsUser`,
`IsAnonymousAdmin`, `IsAnonymousChannel`, `IsLinkedChannel` returns true and
the other three return false; the last three are pairwise exclusive on every
sender and exactly one of them returns true iff a chat is present; on a sender
with neither, all four and `IsBot` return false. -/
theorem C16_classes_partition (s : Sender) :
    (s.Chat.isSome = true ∨ s.User.isSome = true →
      s.classes.count (some true) = 1 ∧ s.classes.count (some false) = 3) ∧
    (s.chatClasses.count (some true) ≤ 1 ∧
      s.chatClasses.count (some true) + s.chatClasses.count (some false) = 3) ∧
    (¬ (s.IsAnonymousAdmin = some true ∧ s.IsAnonymousChannel = some true) ∧
      ¬ (s.IsAnonymousAdmin = some true ∧ s.IsLinkedChannel = some true) ∧
      ¬ (s.IsAnonymousChannel = some true ∧ s.IsLinkedChannel = some true)) ∧
    (s.chatClasses.count (some true) = 1 ↔ s.Chat.isSome = true) ∧
    (s.Chat = none → s.User = none →
      s.IsUser = some false ∧ s.IsAnonymousAdmin = some false ∧
      s.IsAnonymousChannel = some false ∧ s.IsLinkedChannel = some false ∧
      s.IsBot = some false) := by
  rcases s with ⟨user, chat, fwd, cid⟩
  cases chat with
  | none =>
    cases user <;>
      simp [Sender.classes, Sender.chatClasses, Sender.IsUser, Sender.IsBot,
        Sender.IsAnonymousAdmin, Sender.IsAnonymousChannel, Sender.IsLinkedChannel]
  | some c =>
    by_cases hid : c.Id = cid
    · have hb : (c.Id == cid) = true := by simpa using hid
      cases fwd <;> cases user <;>
        simp [Sender.classes, Sender.chatClasses, Sender.IsUser, Sender.IsBot,
          Sender.IsAnonymousAdmin, Sender.IsAnonymousChannel, Sender.IsLinkedChannel, hb, hid]
    · have hb : (c.Id == cid) = false := by simpa using hid
      have hn : (c.Id != cid) = true := by simpa using hid
      cases fwd <;> cases user <;>
        simp [Sender.classes, Sender.chatClasses, Sender.IsUser, Sender.IsBot,
          Sender.IsAnonymousAdmin, Sender.IsAnonymousChannel, Sender.IsLinkedChannel, hb, hn, hid]

/-- C16 on five senders: an anonymous admin, an anonymous channel, a linked
channel and a user each fall in exactly one class, and a message without
sender falls in none and is not a bot. -/
theorem C16_classes_partition_witness :
    (msgAnonymousAdmin.GetSender.classes.count (some true) = 1 ∧
      msgAnonymousAdmin.GetSender.classes.count (some false) = 3) ∧
    (msgAnonymousChannel.GetSender.classes.count (some true) = 1 ∧
      msgAnonymousChannel.GetSender.classes.count (some false) = 3) ∧
    (msgLinkedChannel.GetSender.classes.count (some true) = 1 ∧
      msgLinkedChannel.GetSender.classes.count (some false) = 3) ∧
    (msgFromUser.GetSender.classes.count (some true) = 1 ∧
      msgFromUser.GetSender.classes.count (some false) = 3) ∧
    (msgNoSender.GetSender.IsUser = some false ∧
      msgNoSender.GetSender.IsAnonymousAdmin = some false ∧
      msgNoSender.GetSender.IsAnonymousChannel = some false ∧
      msgNoSender.GetSender.IsLinkedChannel = some false ∧
      msgNoSender.GetSender.IsBot = some false) :=
  ⟨(C16_classes_partition msgAnonymousAdmin.GetSender).1 (Or.inl rfl),
   (C16_classes_partition msgAnonymousChannel.GetSender).1 (Or.inl rfl),
   (C16_classes_partition msgLinkedChannel.GetSender).1 (Or.inl rfl),
   (C16_classes_partition msgFromUser.GetSender).1 (Or.inr rfl),
   (C16_classes_partition msgNoSender.GetSender).2.2.2.2 rfl rfl⟩

/-! ## Consistency of the name accessors -/

/-- C17: on every sender the three name accessors return, and the name is the
first name when the last name is empty, and the first name, a space and the
last name when the last name is non-empty; so the first name is always a
prefix of the name. -/
theorem C17_Name_from_parts (s : Sender) :
    ∃ n f l : String,
      s.Name = some n ∧ s.FirstName = some f ∧ s.LastName = some l ∧
      (l = "" → n = f) ∧
      (l ≠ "" → n = f ++ " " ++ l) ∧
      (∃ rest : String, n = f ++ rest) := by
  rcases s with ⟨user, chat, fwd, cid⟩
  cases chat with
  | some c =>
    exact ⟨c.Title, c.Title, "", by simp [Sender.Name], by simp [Sender.FirstName],
      by simp [Sender.LastName], fun _ => rfl, fun h => absurd rfl h, "", by simp⟩
  | none =>
    cases user with
    | none =>
      exact ⟨"", "", "", by simp [Sender.Name], by simp [Sender.FirstName],
        by simp [Sender.LastName], fun _ => rfl, fun h => absurd rfl h, "", by simp⟩
    | some u =>
      by_cases hl : u.LastName = ""
      · exact ⟨u.FirstName, u.FirstName, u.LastName, by simp [Sender.Name, hl],
          by simp [Sender.FirstName], by simp [Sender.LastName],
          fun _ => rfl, fun h => absurd hl h, "", by simp⟩
      · exact ⟨u.FirstName ++ " " ++ u.LastName, u.FirstName, u.LastName,
          by simp [Sender.Name, hl], by simp [Sender.FirstName], by simp [Sender.LastName],
          fun h => absurd h hl, fun _ => rfl, " " ++ u.LastName, by simp [String.append_assoc]⟩

/-- C17 on the user Ada Byron (non-empty last name) and on a bot without last
name: the name is put together from the parts the theorem speaks of. -/
theorem C17_Name_from_parts_witness :
    msgFromUser.GetSender.LastName = some "Byron" ∧
    msgFromUser.GetSender.Name = some ("Ada" ++ " " ++ "Byron") ∧
    msgFromBot.GetSender.LastName = some "" ∧
    msgFromBot.GetSender.Name = some "Helper" := by
  refine ⟨by decide, ?_, by decide, ?_⟩
  · obtain ⟨n, f, l, hn, hf, hl, _, hfull, _⟩ := C17_Name_from_parts msgFromUser.GetSender
    have ef : f = "Ada" :=
      Option.some.inj (hf.symm.trans (by decide : msgFromUser.GetSender.FirstName = some "Ada"))
    have el : l = "Byron" :=
      Option.some.inj (hl.symm.trans (by decide : msgFromUser.GetSender.LastName = some "Byron"))
    subst ef el
    rw [hn, hfull (by decide)]
  · obtain ⟨n, f, l, hn, hf, hl, hshort, _, _⟩ := C17_Name_from_parts msgFromBot.GetSender
    have ef : f = "Helper" :=
      Option.some.inj (hf.symm.trans (by decide : msgFromBot.GetSender.FirstName = some "Helper"))
    have el : l = "" :=
      Option.some.inj (hl.symm.trans (by decide : msgFromBot.GetSender.LastName = some ""))
    subst ef
    rw [hn, hshort el]

end Gotgbot
